import Mathlib

set_option autoImplicit false

/-!
Shallow embedding of the NVP Quantum plugin
(src/quantum/plugins/nicira/nicira_nvp_plugin/QuantumPlugin.py and
nvp_cluster.py), together with theorems settling the specification
claims about it.  Machine state (local record store, backend switch and
port views) is passed explicitly; Python exceptions become an error
type returned through Except; Python dict/attribute semantics are
modelled where the code depends on them.
-/

namespace Nvp

abbrev Uuid := String

/-- Error kinds raised by the plugin code.  Each constructor corresponds to
one exception class appearing in QuantumPlugin.py: quantum.common
exceptions (NetworkNotFound, InvalidInput, VlanIdInUse, NotImplementedError,
PortNotFound), nvp exceptions (NvpOutOfSyncException,
NvpNoMorePortsException, NvpPluginException, NvpInvalidNovaZone) and the
Python runtime errors the code can hit (AttributeError, IndexError).
BackendError stands for a transport failure escaping an nvplib call. -/
inductive QErr where
  | NetworkNotFound (net_id : Uuid)
  | InvalidInput (msg : String)
  | VlanIdInUse (vlan_id : Int)
  | NotImplementedError
  | NvpOutOfSyncException
  | NvpNoMorePortsException (network : Uuid)
  | NvpPluginException (msg : String)
  | NvpInvalidNovaZone (zone : String)
  | AttributeError (attr : String)
  | IndexError
  | PortNotFound (port_id : Uuid)
  | BackendError
deriving DecidableEq, Repr

/-- A local (Quantum db) network record, as produced by the db base plugin
and extended by the NVP plugin with the port-security projection. -/
structure NetRec where
  id : Uuid
  tenant_id : String
  name : String
  admin_state_up : Bool
  status : String
  port_security : Bool
deriving DecidableEq, Repr

/-- A provider network binding row of the nicira db
(network id, binding type, transport zone uuid alias physical network,
vlan id).  tz_uuid and vlan_id are NULL for non-vlan bindings, hence
Option. -/
structure NetworkBinding where
  network_id : Uuid
  binding_type : String
  tz_uuid : Option String
  vlan_id : Option Int
deriving DecidableEq, Repr

/-- A local (Quantum db) port record with the port-security projection. -/
structure PortRec where
  id : Uuid
  network_id : Uuid
  tenant_id : String
  name : String
  device_id : String
  admin_state_up : Bool
  mac_address : String
  status : String
  port_security : Bool
deriving DecidableEq, Repr

/-- The local record store: network records, provider bindings and port
records (spec section 6 collaborator; the db base plugin itself is not
under src/). -/
structure LocalStore where
  networks : List NetRec
  bindings : List NetworkBinding
  ports : List PortRec
deriving DecidableEq, Repr

/-- A backend logical switch as returned by nvplib queries: uuid,
display name, tag set (scope, tag pairs) and the LogicalSwitchStatus
relation fields fabric_status and lport_count. -/
structure Lswitch where
  uuid : Uuid
  display_name : String
  tags : List (String × String)
  fabric_status : Bool
  lport_count : Nat
deriving DecidableEq, Repr

/-- Status constants from quantum.common.constants. -/
def NET_STATUS_ACTIVE : String := "ACTIVE"

/-- Status constant for a network whose fabric is down. -/
def NET_STATUS_DOWN : String := "DOWN"

/-- Port status constant for an up fabric. -/
def PORT_STATUS_ACTIVE : String := "ACTIVE"

/-- Port status constant for a down fabric. -/
def PORT_STATUS_DOWN : String := "DOWN"

/-! ### Zone resolution (claims about _novazone_to_cluster and
_find_target_cluster, QuantumPlugin.py lines 200-225) -/

/-- An NVPCluster as far as zone resolution sees it (nvp_cluster.py:
name plus the zone property, which reads the zone field of the first
controller). -/
structure NVPCluster where
  name : String
  zone : String
deriving DecidableEq, Repr

/-- The plugin instance attributes that zone resolution touches.
clusters is the dict built in __init__ (name to cluster mapping,
insertion ordered).  novazone_cluster_map models the instance attribute
of that name: some cache when the attribute exists on the instance,
none when it was never assigned. -/
structure PluginZoneState where
  clusters : List (String × NVPCluster)
  novazone_cluster_map : Option (List (String × NVPCluster))
deriving Repr

/-- The state left by __init__ (QuantumPlugin.py lines 126-187): the
clusters dict is populated, but no statement in __init__ or anywhere
else in the class ever assigns self.novazone_cluster_map, so the
attribute does not exist. -/
def initZoneState (clusters : List (String × NVPCluster)) : PluginZoneState :=
  { clusters := clusters, novazone_cluster_map := none }

/-- Embedding of _novazone_to_cluster (lines 200-212) under Python
semantics.  Reading self.novazone_cluster_map when the attribute was
never assigned raises AttributeError.  If the attribute existed, a
cache hit would return the cached cluster; on a miss the loop
iterates for x in self.clusters, which yields the KEYS of the dict
(strings), so the first iteration would evaluate x.zone on a string
and raise AttributeError; with an empty clusters dict the loop body
never runs and NvpInvalidNovaZone is raised. -/
def novazone_to_cluster (p : PluginZoneState) (novazone_id : String) :
    Except QErr (NVPCluster × PluginZoneState) :=
  match p.novazone_cluster_map with
  | none => .error (.AttributeError "novazone_cluster_map")
  | some cache =>
    match cache.find? (fun kv => kv.1 = novazone_id) with
    | some kv => .ok (kv.2, p)
    | none =>
      match p.clusters with
      | [] => .error (.NvpInvalidNovaZone novazone_id)
      | _ :: _ => .error (.AttributeError "zone")

/-- Embedding of _find_target_cluster (lines 214-225): a resource with a
nova_id attribute goes through _novazone_to_cluster, otherwise the
default cluster is returned. -/
def find_target_cluster (p : PluginZoneState) (default_cluster : NVPCluster)
    (nova_id : Option String) : Except QErr (NVPCluster × PluginZoneState) :=
  match nova_id with
  | some z => novazone_to_cluster p z
  | none => .ok (default_cluster, p)

/-! ### update_network guard (claim C9, lines 523-537) -/

/-- Python truthiness of the value returned by
network.get of the admin_state_up key: none models an absent key. -/
def truthy : Option Bool → Bool
  | none => false
  | some b => b

/-- The body of update_network after the admin_state_up guard
(lines 529-537): one transaction applying the db base plugin update and
the port-security binding update.  Modelled from the spec: the db base
plugin update (not under src/) replaces the fields present in the
request on the record with the given id. -/
def update_network_body (st : LocalStore) (id : Uuid)
    (name : Option String) (admin_state_up : Option Bool)
    (port_security : Option Bool) : LocalStore :=
  { st with networks := st.networks.map (fun n =>
      if n.id = id then
        { n with name := name.getD n.name,
                 admin_state_up := admin_state_up.getD n.admin_state_up,
                 port_security := port_security.getD n.port_security }
      else n) }

/-- Embedding of update_network (lines 523-537).  The outer guard tests
the truthiness of network.get of admin_state_up; only inside it does
the code compare the value against False and raise
NotImplementedError. -/
def update_network (st : LocalStore) (id : Uuid)
    (name : Option String) (admin_state_up : Option Bool)
    (port_security : Option Bool) : Except QErr LocalStore :=
  if truthy admin_state_up then
    if admin_state_up = some false then
      .error .NotImplementedError
    else
      .ok (update_network_body st id name admin_state_up port_security)
  else
    .ok (update_network_body st id name admin_state_up port_security)

/-! ### delete_network (claim C1, lines 385-412) -/

/-- Modelled from the spec: the db base plugin delete_network
(quantum.db.db_base_plugin_v2, not under src/) is the transactional CRUD
delete of spec section 6; it removes the local network record with the
given id. -/
def super_delete_network (st : LocalStore) (id : Uuid) : LocalStore :=
  { st with networks := st.networks.filter (fun n => n.id ≠ id) }

/-- Embedding of _get_lswitch_cluster_pairs (lines 397-412).  The
backend argument models nvplib.get_lswitches per cluster: error means
the call raised NetworkNotFound (which the loop swallows with
continue), ok gives the switches whose uuids are collected.  When every
cluster raised, pairs is empty and NetworkNotFound is raised for the
network. -/
def collect_pairs (clusters : List NVPCluster)
    (backend : NVPCluster → Uuid → Except Unit (List Lswitch))
    (netw_id : Uuid) : List (NVPCluster × List Uuid) :=
  clusters.foldr
    (fun c acc =>
      match backend c netw_id with
      | .error _ => acc
      | .ok results => (c, results.map (fun ls => ls.uuid)) :: acc) []

/-- The pair list is empty exactly when every cluster raised; then
NetworkNotFound is raised for the network (lines 409-410). -/
def get_lswitch_cluster_pairs (clusters : List NVPCluster)
    (backend : NVPCluster → Uuid → Except Unit (List Lswitch))
    (netw_id : Uuid) : Except QErr (List (NVPCluster × List Uuid)) :=
  if (collect_pairs clusters backend netw_id).isEmpty then
    .error (.NetworkNotFound netw_id)
  else .ok (collect_pairs clusters backend netw_id)

/-- Embedding of delete_network (lines 385-395).  The db base plugin
delete runs FIRST; only then are the (cluster, switches) pairs
computed, and only on success are the backend deletions issued (the ok
value lists the pairs deleted on the backend).  The second component is
the local store as left behind by the call, whether it raised or
not. -/
def delete_network (st : LocalStore) (clusters : List NVPCluster)
    (backend : NVPCluster → Uuid → Except Unit (List Lswitch))
    (id : Uuid) : Except QErr (List (NVPCluster × List Uuid)) × LocalStore :=
  let st1 := super_delete_network st id
  match get_lswitch_cluster_pairs clusters backend id with
  | .error e => (.error e, st1)
  | .ok pairs => (.ok pairs, st1)

/-! ### get_networks cross-reference loop (claims C2 and C10,
lines 446-521) -/

/-- Linear scan of the nvp switch list for the first element with the
given uuid, returning it together with the list with that occurrence
removed (the loop breaks after nvp_lswitches.remove). -/
def findRemoveByUuid (uuid : Uuid) : List Lswitch → Option (Lswitch × List Lswitch)
  | [] => none
  | s :: rest =>
    if s.uuid = uuid then some (s, rest)
    else
      match findRemoveByUuid uuid rest with
      | none => none
      | some (t, rest2) => some (t, s :: rest2)

/-- The for/else matching loop of get_networks (lines 488-501): each
local record must find a backend switch with the same uuid, copying
display name and fabric status over and consuming the switch; a local
record for which the inner loop finishes without break raises
NvpOutOfSyncException.  Returns the updated records and the switches
left unclaimed. -/
def matchNetworks : List NetRec → List Lswitch →
    Except QErr (List NetRec × List Lswitch)
  | [], nvps => .ok ([], nvps)
  | q :: qs, nvps =>
    match findRemoveByUuid q.id nvps with
    | none => .error .NvpOutOfSyncException
    | some (s, rest) =>
      match matchNetworks qs rest with
      | .error e => .error e
      | .ok (qs2, rem) =>
        .ok ({ q with
                 status := if s.fabric_status then NET_STATUS_ACTIVE
                           else NET_STATUS_DOWN,
                 name := s.display_name } :: qs2, rem)

/-- The cross-reference tail of get_networks (lines 488-507): the
matching loop followed by the drift check, which logs one aggregate
warning carrying the count of unclaimed backend switches when there are
any (some n), and no warning otherwise (none).  Unclaimed switches are
only counted, never returned and never deleted. -/
def get_networks_match (quantum : List NetRec) (nvps : List Lswitch) :
    Except QErr (List NetRec × Option Nat) :=
  match matchNetworks quantum nvps with
  | .error e => .error e
  | .ok (qs, rem) =>
    .ok (qs, if rem.length ≠ 0 then some rem.length else none)

/-- Filters accepted by get_networks: lists of tenant ids and network
ids; an empty list models an absent (falsy) entry of the filters
dict. -/
structure NetFilters where
  tenant_id : List String
  id : List Uuid
deriving DecidableEq, Repr

/-- Modelled from the spec: the db base plugin bulk read (spec section 6,
filterable bulk reads by field-equality filters; not under src/).  It
accepts a missing filters mapping and applies tenant and id equality
filters when present. -/
def local_get_networks (st : LocalStore) (filters : Option NetFilters) :
    List NetRec :=
  match filters with
  | none => st.networks
  | some f =>
    (st.networks.filter (fun n =>
        f.tenant_id.isEmpty ∨ f.tenant_id.contains n.tenant_id)).filter
      (fun n => f.id.isEmpty ∨ f.id.contains n.id)

/-- Embedding of get_networks (lines 446-521).  The db base read runs
first (it tolerates a missing filters mapping); then lines 455-462
compute the tenant filter by calling filters.get, which on a None
filters raises AttributeError whichever branch of the conditional is
taken (is_admin true evaluates filters.get directly, is_admin false
falls to the elif that evaluates it).  fetched models the switches
returned by the per-cluster backend queries; line 480-486 re-filter
them by the id filter (one output occurrence per matching id), and the
cross-reference loop finishes the job. -/
def get_networks (_is_admin : Bool) (st : LocalStore)
    (fetched : List Lswitch) (filters : Option NetFilters) :
    Except QErr (List NetRec × Option Nat) :=
  let quantum_lswitches := local_get_networks st filters
  match filters with
  | none => .error (.AttributeError "get")
  | some f =>
    let nvp_lswitches :=
      if f.id.isEmpty then fetched
      else fetched.flatMap
        (fun s => (f.id.filter (fun i => i = s.uuid)).map (fun _ => s))
    get_networks_match quantum_lswitches nvp_lswitches

/-! ### Provider validation and create_network (claims C4 and C6,
lines 233-277 and 346-383) -/

/-- The create-network request data after the network dict copy: name,
admin state, tenant, port-security attribute, and the three provider
attributes, where none models ATTR_NOT_SPECIFIED (is_attr_set
false). -/
structure NetCreateData where
  name : String
  admin_state_up : Bool
  tenant_id : String
  port_security : Bool
  network_type : Option String
  physical_network : Option String
  segmentation_id : Option Int
deriving DecidableEq, Repr

/-- Embedding of nicira_db.get_network_binding_by_vlanid as visible from
its call site (line 265): the query receives only the session and the
segmentation id, so it selects bindings by vlan id alone; modelled as
the first binding row whose vlan_id equals the argument.  (The
nicira_db module itself is not under src/; spec section 6 gives the
store field-equality filtering.) -/
def get_network_binding_by_vlanid (bindings : List NetworkBinding)
    (vlan_id : Int) : Option NetworkBinding :=
  bindings.find? (fun b => b.vlan_id = some vlan_id)

/-- Embedding of _handle_provider_create (lines 233-277): nothing to do
when no provider attribute is set; otherwise the elif chain validates
type co-presence rules, the vlan range check (1 to 4094, InvalidInput
on violation) and the vlan id uniqueness check (VlanIdInUse when a
binding with that vlan id exists). -/
def handle_provider_create (bindings : List NetworkBinding)
    (d : NetCreateData) : Except QErr Unit :=
  let network_type_set := d.network_type.isSome
  let physical_network_set := d.physical_network.isSome
  let segmentation_id_set := d.segmentation_id.isSome
  if ¬(network_type_set ∨ physical_network_set ∨ segmentation_id_set) then
    .ok ()
  else if ¬network_type_set then
    .error (.InvalidInput "network_type required")
  else if d.network_type = some "gre" ∨ d.network_type = some "stt" ∨
          d.network_type = some "flat" then
    if segmentation_id_set then
      .error (.InvalidInput
        "Segmentation ID cannot be specified with flat network type")
    else .ok ()
  else if d.network_type = some "vlan" then
    match d.segmentation_id with
    | none =>
      .error (.InvalidInput
        "Segmentation ID must be specified with vlan network type")
    | some sid =>
      if sid < 1 ∨ sid > 4094 then
        .error (.InvalidInput "out of range (1 to 4094)")
      else
        match get_network_binding_by_vlanid bindings sid with
        | some _ => .error (.VlanIdInUse sid)
        | none => .ok ()
  else
    .error (.InvalidInput "network type not supported")

/-- Combined system state for operations that touch both the local
store and the backend switch set of the target cluster. -/
structure SysState where
  store : LocalStore
  backendSwitches : List Lswitch
deriving DecidableEq, Repr

/-- The local transaction of create_network (lines 369-382), executed as
one atomic scope: the db base create of the network record under the
backend-assigned uuid, the port-security side record, and, when a
provider type is set, the binding row.  The db base create itself is
modelled from the spec (section 6 transactional CRUD; not under
src/). -/
def create_network_txn (st : LocalStore) (u : Uuid) (d : NetCreateData) :
    NetRec × LocalStore :=
  let rec0 : NetRec :=
    { id := u, tenant_id := d.tenant_id, name := d.name,
      admin_state_up := true, status := NET_STATUS_ACTIVE,
      port_security := d.port_security }
  let bindings :=
    match d.network_type with
    | some t =>
      st.bindings ++ [{ network_id := u, binding_type := t,
                        tz_uuid := d.physical_network,
                        vlan_id := d.segmentation_id }]
    | none => st.bindings
  (rec0, { st with networks := st.networks ++ [rec0], bindings := bindings })

/-- Embedding of create_network (lines 346-383).  Provider validation
runs first; then nvplib.create_lswitch is issued against the target
cluster (backendResult is the backend outcome: the assigned uuid, or a
transport failure which propagates before any local mutation); on
success the switch exists on the backend, the record id is set to the
backend uuid, and the single local transaction runs.  The second
component is the system state the call leaves behind. -/
def create_network (sys : SysState) (backendResult : Except Unit Uuid)
    (d : NetCreateData) : Except QErr NetRec × SysState :=
  match handle_provider_create sys.store.bindings d with
  | .error e => (.error e, sys)
  | .ok _ =>
    match backendResult with
    | .error _ => (.error .BackendError, sys)
    | .ok u =>
      let newSwitch : Lswitch :=
        { uuid := u, display_name := d.name, tags := [],
          fabric_status := true, lport_count := 0 }
      let pr := create_network_txn sys.store u d
      (.ok pr.1,
       { store := pr.2,
         backendSwitches := sys.backendSwitches ++ [newSwitch] })

/-! ### Switch selection (claim C5, lines 292-326) -/

/-- Result of _handle_lswitch_selection: either an existing switch was
returned from the queried list, or a new extra switch was created on
the backend (taggedPrimary records whether the primary switch had to be
tagged multi_lswitch first). -/
inductive SelectionOutcome where
  | existing (ls : Lswitch)
  | created (ls : Lswitch) (taggedPrimary : Bool)
deriving DecidableEq, Repr

/-- Embedding of _handle_lswitch_selection (lines 292-326) over the
switch list returned by nvplib.get_lswitches for the network.  The
comprehension keeps switches whose lport_count is strictly below
max_ports and pop(0) takes the first; on IndexError (no such switch),
if extra switches are allowed the code locates main_ls (the switches
whose uuid equals the network id) and indexes main_ls[0], raising
IndexError when there is none; otherwise it tags the primary with
multi_lswitch if not yet tagged and creates a new switch whose display
name is the network name, the literal -ext- and the number of switches
queried, with the backend assigning newUuid.  With extra switches
disallowed NvpNoMorePortsException is raised for the network. -/
def handle_lswitch_selection (lswitches : List Lswitch) (networkId : Uuid)
    (networkName : String) (maxPorts : Nat) (allowExtra : Bool)
    (newUuid : Uuid) : Except QErr SelectionOutcome :=
  match lswitches.filter (fun ls => ls.lport_count < maxPorts) with
  | ls :: _ => .ok (.existing ls)
  | [] =>
    if allowExtra then
      match lswitches.filter (fun ls => ls.uuid = networkId) with
      | [] => .error .IndexError
      | main :: _ =>
        let needTag := ! main.tags.any (fun t => t.1 = "multi_lswitch")
        let newLs : Lswitch :=
          { uuid := newUuid,
            display_name :=
              networkName ++ "-ext-" ++ toString lswitches.length,
            tags := [("os_tid", ""), ("quantum_net_id", networkId)],
            fabric_status := true, lport_count := 0 }
        .ok (.created newLs needTag)
    else
      .error (.NvpNoMorePortsException networkId)

/-! ### create_port (claim C7, lines 632-704) -/

/-- Allowed network type constant for flat provider networks
(class NetworkTypes, lines 59-64). -/
def NetworkTypesFLAT : String := "flat"

/-- Allowed network type constant for vlan provider networks. -/
def NetworkTypesVLAN : String := "vlan"

/-- The nvp options consumed by create_port: the two port-capacity
ceilings (overlay and bridged logical switches). -/
structure NvpOpts where
  max_lp_per_overlay_ls : Nat
  max_lp_per_bridged_ls : Nat
deriving DecidableEq, Repr

/-- The bridged test of create_port (lines 661-663): the network
binding exists and its type is flat or vlan. -/
def binding_bridged : Option NetworkBinding → Bool
  | some b => b.binding_type = NetworkTypesFLAT ∨
              b.binding_type = NetworkTypesVLAN
  | none => false

/-- The create-port request data (port dict).  port_security none
models ATTR_NOT_SPECIFIED. -/
structure PortCreateData where
  network_id : Uuid
  tenant_id : String
  name : String
  device_id : String
  admin_state_up : Bool
  port_security : Option Bool
deriving DecidableEq, Repr

/-- Embedding of create_port (lines 632-704).  The whole method body is
one local transaction scope, so any exception rolls every local
mutation back: the returned system state is the input state on every
error path.  Within the scope: the db base create allocates the local
port record (id and MAC locally assigned, passed here as newPortId and
newMac; modelled from the spec since the db base plugin is not under
src/); the owning network and its binding are read (the db base getter
raises NetworkNotFound on a missing network); the capacity ceiling and
the extra-switch permission come from the binding type (flat and vlan
are bridged); then the try block runs switch selection followed by
nvplib.create_lport and plug_interface (their combined transport
outcome is backendOk).  The first except clause re-raises
NvpNoMorePortsException unchanged; the second wraps every other
exception into NvpPluginException. -/
def create_port (opts : NvpOpts) (sys : SysState) (d : PortCreateData)
    (newPortId : Uuid) (newMac : String) (lswitches : List Lswitch)
    (newLsUuid : Uuid) (backendOk : Bool) :
    Except QErr PortRec × SysState :=
  match sys.store.networks.find? (fun n => n.id = d.network_id) with
  | none => (.error (.NetworkNotFound d.network_id), sys)
  | some net =>
    let binding :=
      sys.store.bindings.find? (fun b => b.network_id = d.network_id)
    let bridged : Bool := binding_bridged binding
    let maxPorts :=
      if bridged then opts.max_lp_per_bridged_ls
      else opts.max_lp_per_overlay_ls
    let allowExtra := bridged
    match handle_lswitch_selection lswitches d.network_id net.name
        maxPorts allowExtra newLsUuid with
    | .error (.NvpNoMorePortsException n) =>
      (.error (.NvpNoMorePortsException n), sys)
    | .error _ =>
      (.error (.NvpPluginException "create_port"), sys)
    | .ok sel =>
      if backendOk then
        let rec0 : PortRec :=
          { id := newPortId, network_id := d.network_id,
            tenant_id := d.tenant_id, name := d.name,
            device_id := d.device_id,
            admin_state_up := d.admin_state_up, mac_address := newMac,
            status := PORT_STATUS_ACTIVE,
            port_security := d.port_security.getD true }
        let backendSwitches2 :=
          match sel with
          | .existing _ => sys.backendSwitches
          | .created ls _ => sys.backendSwitches ++ [ls]
        (.ok rec0,
         { store :=
             { sys.store with ports := sys.store.ports ++ [rec0] },
           backendSwitches := backendSwitches2 })
      else
        (.error (.NvpPluginException "create_port"), sys)

/-! ### get_ports bulk projection (claim C8, lines 539-630) -/

/-- A backend logical port row as returned by the paginated lport
query: tag set, admin flag, display name, and the LogicalPortStatus
relation field fabric_status_up. -/
structure NvpLport where
  uuid : Uuid
  tags : List (String × String)
  admin_status_enabled : Bool
  display_name : String
  fabric_status_up : Bool
deriving DecidableEq, Repr

/-- Filters accepted by get_ports; an empty list models an absent
(falsy) filters entry. -/
structure PortFilters where
  network_id : List Uuid
  device_id : List String
  tenant_id : List String
deriving DecidableEq, Repr

/-- Python dict assignment on an association list: overwrite the
existing entry for the key in place, else append. -/
def dictInsert (m : List (Uuid × NvpLport)) (k : Uuid) (v : NvpLport) :
    List (Uuid × NvpLport) :=
  if m.any (fun kv => kv.1 = k) then
    m.map (fun kv => if kv.1 = k then (k, v) else kv)
  else m ++ [(k, v)]

/-- The nvp_lports dict construction (lines 568-584): for every page of
every cluster, every port is stored under each of its tags with scope
q_port_id. -/
def build_nvp_lports (pages : List (List NvpLport)) :
    List (Uuid × NvpLport) :=
  pages.foldl
    (fun m ports =>
      ports.foldl
        (fun m port =>
          port.tags.foldl
            (fun m tag =>
              if tag.1 = "q_port_id" then dictInsert m tag.2 port else m)
            m)
        m)
    []

/-- The projection loop of get_ports (lines 591-613): each local record
looks its id up in the nvp_lports dict; on a hit the admin flag,
display name and fabric-status-derived status are copied over, the
entry is deleted from the dict and the record appended to the output;
a KeyError (no entry) only logs and skips the record.  Returns the
output rows and the dict entries never claimed. -/
def project_ports : List PortRec → List (Uuid × NvpLport) →
    List PortRec × List (Uuid × NvpLport)
  | [], m => ([], m)
  | q :: qs, m =>
    match m.find? (fun kv => kv.1 = q.id) with
    | none => project_ports qs m
    | some kv =>
      let q2 :=
        { q with admin_state_up := kv.2.admin_status_enabled,
                 name := kv.2.display_name,
                 status := if kv.2.fabric_status_up then PORT_STATUS_ACTIVE
                           else PORT_STATUS_DOWN }
      let m2 := m.filter (fun kv2 => kv2.1 ≠ q.id)
      let (rest, mfin) := project_ports qs m2
      (q2 :: rest, mfin)

/-- Modelled from the spec: the db base plugin bulk port read (spec
section 6 field-equality filtered read; not under src/), applying the
network, device and tenant filters to the local port records. -/
def local_get_ports (st : LocalStore) (filters : PortFilters) :
    List PortRec :=
  ((st.ports.filter (fun p =>
      filters.network_id.isEmpty ∨ filters.network_id.contains p.network_id)).filter
    (fun p =>
      filters.device_id.isEmpty ∨ filters.device_id.contains p.device_id)).filter
    (fun p =>
      filters.tenant_id.isEmpty ∨ filters.tenant_id.contains p.tenant_id)

/-- Embedding of get_ports (lines 539-630) as a function of the system
state and the backend query pages (the per-cluster paginated lport
results for the filter-derived query).  The method performs no write:
the local store it leaves behind is returned as the second component.
The first component carries the projected rows and the aggregate drift
warning count (some n when n backend ports were never claimed, none
otherwise).  The optional trailing field selection (lines 622-629) is a
pure row projection of the returned rows and is not modelled
separately. -/
def get_ports (st : LocalStore) (filters : PortFilters)
    (pages : List (List NvpLport)) :
    (List PortRec × Option Nat) × LocalStore :=
  let quantum_lports := local_get_ports st filters
  let nvp_lports := build_nvp_lports pages
  let pr := project_ports quantum_lports nvp_lports
  ((pr.1, if pr.2.length ≠ 0 then some pr.2.length else none), st)

/-! ## Theorems -/

/-- Helper: the cross-reference loop of get_networks can only raise
NvpOutOfSyncException. -/
theorem matchNetworks_error_eq (quantum : List NetRec) :
    ∀ (nvps : List Lswitch) (e : QErr),
      matchNetworks quantum nvps = .error e → e = .NvpOutOfSyncException := by
  induction quantum with
  | nil => intro nvps e h; simp [matchNetworks] at h
  | cons q qs ih =>
    intro nvps e h
    rw [matchNetworks] at h
    cases hf : findRemoveByUuid q.id nvps with
    | none => rw [hf] at h; cases h; rfl
    | some pr =>
      obtain ⟨s, rest⟩ := pr
      rw [hf] at h
      simp only at h
      cases hm : matchNetworks qs rest with
      | error e2 =>
        rw [hm] at h
        simp only at h
        injection h with h2
        subst h2
        exact ih rest _ hm
      | ok v =>
        obtain ⟨qs2, rem⟩ := v
        rw [hm] at h
        simp only at h
        exact Except.noConfusion h

/-- C9: the NotImplementedError rejection branch of update_network is
unreachable.  The outer guard tests truthiness of the admin_state_up
value, which is falsy exactly when that value is False (or absent), so
the inner comparison against False can never succeed: every update,
including one explicitly setting admin_state_up to False, proceeds to
the ordinary update body. -/
theorem update_network_reject_unreachable (st : LocalStore) (id : Uuid)
    (name : Option String) (admin_state_up : Option Bool)
    (port_security : Option Bool) :
    update_network st id name admin_state_up port_security =
      .ok (update_network_body st id name admin_state_up port_security) := by
  cases admin_state_up with
  | none => rfl
  | some b => cases b <;> rfl

/-- C3: the failing-input evaluation for the zone-resolution bug.  For
every plugin state as left by __init__ (which never assigns the
novazone_cluster_map attribute) and every resource carrying an explicit
nova_id zone attribute, cluster resolution raises AttributeError on the
very first statement of _novazone_to_cluster instead of scanning the
clusters, so it neither returns a matching cluster nor raises
NvpInvalidNovaZone. -/
theorem find_target_cluster_attribute_error
    (clusters : List (String × NVPCluster)) (default_cluster : NVPCluster)
    (z : String) :
    find_target_cluster (initZoneState clusters) default_cluster (some z) =
      .error (.AttributeError "novazone_cluster_map") := rfl

/-- C8: the bulk get_ports projection is deterministic and mutates
nothing: it leaves the local store exactly as it found it, and running
it a second time on the state it left behind, with the same filters and
the same backend pages, returns the identical result. -/
theorem get_ports_idempotent (st : LocalStore) (filters : PortFilters)
    (pages : List (List NvpLport)) :
    (get_ports st filters pages).2 = st ∧
    get_ports (get_ports st filters pages).2 filters pages =
      get_ports st filters pages :=
  ⟨rfl, rfl⟩

/-- C10: get_networks requires a filters mapping despite its declared
default.  With filters absent (None) the tenant-filter computation
calls filters.get on None and raises AttributeError for every context,
before any result is returned; with a filters mapping present those
accesses are well-defined and the call never raises AttributeError. -/
theorem get_networks_filters_none_attribute_error (is_admin : Bool)
    (st : LocalStore) (fetched : List Lswitch) :
    get_networks is_admin st fetched none = .error (.AttributeError "get") ∧
    ∀ (f : NetFilters) (a : String),
      get_networks is_admin st fetched (some f) ≠
        .error (.AttributeError a) := by
  refine ⟨rfl, ?_⟩
  intro f a h
  rw [get_networks] at h
  rw [get_networks_match] at h
  cases hm : matchNetworks (local_get_networks st (some f))
      (if f.id.isEmpty then fetched
       else fetched.flatMap
         (fun s => (f.id.filter (fun i => i = s.uuid)).map (fun _ => s))) with
  | error e =>
    rw [hm] at h
    cases h
    exact absurd (matchNetworks_error_eq _ _ _ hm) (by simp)
  | ok v => rw [hm] at h; cases h

/-- C10 witness: the theorem applied at a concrete input (admin
context, empty store, empty backend, empty filters mapping). -/
theorem get_networks_filters_witness :
    get_networks true { networks := [], bindings := [], ports := [] } []
        (some { tenant_id := [], id := [] }) ≠
      .error (.AttributeError "get") :=
  (get_networks_filters_none_attribute_error true
    { networks := [], bindings := [], ports := [] } []).2
    { tenant_id := [], id := [] } "get"

/-! ### Claim C1: delete_network on a network with no pairs -/

/-- Helper: when every cluster raises for the network, the collected
pair list is empty. -/
theorem collect_pairs_all_error
    (backend : NVPCluster → Uuid → Except Unit (List Lswitch)) (id : Uuid) :
    ∀ (clusters : List NVPCluster),
      (∀ c ∈ clusters, backend c id = .error ()) →
      collect_pairs clusters backend id = [] := by
  intro clusters
  induction clusters with
  | nil => intro _; rfl
  | cons c cs ih =>
    intro hcs
    rw [collect_pairs, List.foldr_cons, hcs c (by simp)]
    exact ih (fun c2 hc2 => hcs c2 (by simp [hc2]))

/-- A concrete network record for the delete_network counterexample. -/
def c1net : NetRec :=
  { id := "net-1", tenant_id := "t1", name := "n1", admin_state_up := true,
    status := NET_STATUS_ACTIVE, port_security := true }

/-- A concrete local store holding exactly c1net. -/
def c1store : LocalStore := { networks := [c1net], bindings := [], ports := [] }

/-- A concrete cluster for the delete_network counterexample. -/
def c1cluster : NVPCluster := { name := "cluster1", zone := "z1" }

/-- A backend view on which every get_lswitches call for every cluster
raises NetworkNotFound, i.e. the network has zero associated
(cluster, switch) pairs. -/
def c1backend : NVPCluster → Uuid → Except Unit (List Lswitch) :=
  fun _ _ => .error ()

/-- C1 counterexample: a network id with zero (cluster, switch) pairs
does make delete_network fail with NetworkNotFound, but the local
record store is NOT left untouched: the db base delete ran first, so
the local record of the network is already gone when the error is
raised. -/
theorem delete_network_counterexample :
    delete_network c1store [c1cluster] c1backend "net-1" =
      (.error (.NetworkNotFound "net-1"),
       { networks := [], bindings := [], ports := [] }) ∧
    ({ networks := [], bindings := [], ports := [] } : LocalStore) ≠
      c1store := by
  constructor
  · rfl
  · intro h
    simp [c1store, c1net] at h

/-- C1 (amended): for every network id with zero associated
(cluster, switch) pairs across all clusters, delete_network fails with
NetworkNotFound and no backend deletion proceeds, but the local record
is deleted first: the store the call leaves behind is exactly the
store after the db base delete of the id. -/
theorem delete_network_no_pairs (st : LocalStore)
    (clusters : List NVPCluster)
    (backend : NVPCluster → Uuid → Except Unit (List Lswitch)) (id : Uuid)
    (h : ∀ c ∈ clusters, backend c id = .error ()) :
    delete_network st clusters backend id =
      (.error (.NetworkNotFound id), super_delete_network st id) := by
  have hpairs : get_lswitch_cluster_pairs clusters backend id =
      .error (.NetworkNotFound id) := by
    rw [get_lswitch_cluster_pairs, collect_pairs_all_error backend id clusters h]
    rfl
  rw [delete_network, hpairs]

/-- C1 witness: the amended theorem applied at a concrete input with
its hypothesis discharged. -/
theorem delete_network_no_pairs_witness :
    delete_network c1store [c1cluster] c1backend "net-1" =
      (.error (.NetworkNotFound "net-1"),
       super_delete_network c1store "net-1") :=
  delete_network_no_pairs c1store [c1cluster] c1backend "net-1"
    (fun _ _ => rfl)

/-! ### Claim C2: get_networks drift handling -/

/-- Helper: the scan-and-remove returns none exactly when no switch in
the list carries the uuid. -/
theorem findRemoveByUuid_eq_none (uuid : Uuid) :
    ∀ l : List Lswitch,
      findRemoveByUuid uuid l = none ↔ ∀ s ∈ l, s.uuid ≠ uuid := by
  intro l
  induction l with
  | nil => simp [findRemoveByUuid]
  | cons s rest ih =>
    rw [findRemoveByUuid]
    by_cases hs : s.uuid = uuid
    · simp [hs]
    · simp only [if_neg hs]
      cases hf : findRemoveByUuid uuid rest with
      | none =>
        simp only [hf] at ih ⊢
        constructor
        · intro _ s2 hs2
          rcases List.mem_cons.mp hs2 with h1 | h2
          · rw [h1]; exact hs
          · exact ih.mp trivial s2 h2
        · intro _
          trivial
      | some pr =>
        simp only [hf] at ih ⊢
        constructor
        · intro h; exact absurd h (by simp)
        · intro h
          exact absurd (ih.mpr (fun s2 hs2 => h s2 (by simp [hs2]))) (by simp)

/-- Helper: a successful scan-and-remove returns an element of the list
with the sought uuid, and a remainder one shorter whose elements all
come from the list. -/
theorem findRemoveByUuid_eq_some (uuid : Uuid) :
    ∀ (l rest : List Lswitch) (s : Lswitch),
      findRemoveByUuid uuid l = some (s, rest) →
      s ∈ l ∧ s.uuid = uuid ∧ rest.length + 1 = l.length ∧
        ∀ x ∈ rest, x ∈ l := by
  intro l
  induction l with
  | nil => intro rest s h; simp [findRemoveByUuid] at h
  | cons a l2 ih =>
    intro rest s h
    rw [findRemoveByUuid] at h
    by_cases ha : a.uuid = uuid
    · rw [if_pos ha] at h
      injection h with h2
      injection h2 with h3 h4
      subst h3; subst h4
      exact ⟨by simp, ha, by simp, fun x hx => by simp [hx]⟩
    · rw [if_neg ha] at h
      cases hf : findRemoveByUuid uuid l2 with
      | none => rw [hf] at h; exact absurd h (by simp)
      | some pr =>
        obtain ⟨t, rest2⟩ := pr
        rw [hf] at h
        simp only at h
        obtain ⟨hmem, huuid, hlen, hsub⟩ := ih rest2 t hf
        injection h with h2
        injection h2 with h3 h4
        subst h3
        subst h4
        refine ⟨by simp [hmem], huuid, ?_, ?_⟩
        · simp only [List.length_cons]
          omega
        · intro x hx
          rcases List.mem_cons.mp hx with hx1 | hx2
          · simp [hx1]
          · simp [hsub x hx2]

/-- Helper: a successful cross-reference run preserves the local ids in
order and consumes exactly one backend switch per local record. -/
theorem matchNetworks_ok_spec (quantum : List NetRec) :
    ∀ (nvps : List Lswitch) (qs : List NetRec) (rem : List Lswitch),
      matchNetworks quantum nvps = .ok (qs, rem) →
      qs.map (fun r => r.id) = quantum.map (fun r => r.id) ∧
      rem.length + quantum.length = nvps.length := by
  induction quantum with
  | nil =>
    intro nvps qs rem h
    rw [matchNetworks] at h
    injection h with h2
    injection h2 with h3 h4
    subst h3; subst h4
    simp
  | cons q qs2 ih =>
    intro nvps qs rem h
    rw [matchNetworks] at h
    cases hf : findRemoveByUuid q.id nvps with
    | none => rw [hf] at h; exact absurd h (by simp)
    | some pr =>
      obtain ⟨s, rest⟩ := pr
      rw [hf] at h
      simp only at h
      cases hm : matchNetworks qs2 rest with
      | error e => rw [hm] at h; simp only at h; exact absurd h (by simp)
      | ok v =>
        obtain ⟨qs3, rem3⟩ := v
        rw [hm] at h
        simp only at h
        injection h with h2
        injection h2 with h3 h4
        subst h4
        obtain ⟨hids, hlen⟩ := ih rest qs3 rem3 hm
        have hlenf := (findRemoveByUuid_eq_some q.id nvps rest s hf).2.2.1
        subst h3
        constructor
        · simp [hids]
        · simp only [List.length_cons]
          omega

/-- Helper: a local record none of the backend switches matches makes
the cross-reference loop raise NvpOutOfSyncException. -/
theorem matchNetworks_unmatched (quantum : List NetRec) :
    ∀ (nvps : List Lswitch),
      (∃ q ∈ quantum, ∀ s ∈ nvps, s.uuid ≠ q.id) →
      matchNetworks quantum nvps = .error .NvpOutOfSyncException := by
  induction quantum with
  | nil => intro nvps h; simp at h
  | cons q qs ih =>
    intro nvps h
    obtain ⟨q2, hq2mem, hq2⟩ := h
    rcases List.mem_cons.mp hq2mem with hhead | htail
    · subst hhead
      have hnone : findRemoveByUuid q2.id nvps = none :=
        (findRemoveByUuid_eq_none q2.id nvps).mpr hq2
      rw [matchNetworks, hnone]
    · cases hf : findRemoveByUuid q.id nvps with
      | none => rw [matchNetworks, hf]
      | some pr =>
        obtain ⟨s, rest⟩ := pr
        have hrest : ∀ s2 ∈ rest, s2.uuid ≠ q2.id := by
          intro s2 hs2
          exact hq2 s2 ((findRemoveByUuid_eq_some q.id nvps rest s hf).2.2.2 s2 hs2)
        have hrec : matchNetworks qs rest = .error .NvpOutOfSyncException :=
          ih rest ⟨q2, htail, hrest⟩
        rw [matchNetworks, hf]
        simp only
        rw [hrec]

/-- A concrete local record with no backend counterpart. -/
def c2net : NetRec :=
  { id := "net-a", tenant_id := "t2", name := "na", admin_state_up := true,
    status := NET_STATUS_ACTIVE, port_security := true }

/-- C2 counterexample: a local network record with no matching backend
switch is not returned as-is; the cross-reference loop of get_networks
raises NvpOutOfSyncException instead (the for/else at lines 488-501). -/
theorem get_networks_match_counterexample :
    get_networks_match [c2net] [] = .error .NvpOutOfSyncException := rfl

/-- C2 (amended): a local record with no matching backend switch makes
get_networks raise NvpOutOfSyncException (it is not returned as-is);
when every local record finds a backend match, the returned list is
exactly the local records (orphan backend switches never enter it or
get deleted) and the orphans produce at most a single aggregate drift
warning whose count is the number of backend switches in excess of the
local records. -/
theorem get_networks_match_drift (quantum : List NetRec)
    (nvps : List Lswitch) :
    ((∃ q ∈ quantum, ∀ s ∈ nvps, s.uuid ≠ q.id) →
      get_networks_match quantum nvps = .error .NvpOutOfSyncException) ∧
    (∀ (qs : List NetRec) (w : Option Nat),
      get_networks_match quantum nvps = .ok (qs, w) →
      qs.map (fun r => r.id) = quantum.map (fun r => r.id) ∧
      w = if nvps.length = quantum.length then none
          else some (nvps.length - quantum.length)) := by
  constructor
  · intro h
    rw [get_networks_match, matchNetworks_unmatched quantum nvps h]
  · intro qs w h
    rw [get_networks_match] at h
    cases hm : matchNetworks quantum nvps with
    | error e => rw [hm] at h; exact absurd h (by simp)
    | ok v =>
      obtain ⟨qs2, rem⟩ := v
      rw [hm] at h
      simp only at h
      injection h with h2
      injection h2 with h3 h4
      subst h3
      obtain ⟨hids, hlen⟩ := matchNetworks_ok_spec quantum nvps qs2 rem hm
      refine ⟨hids, ?_⟩
      subst h4
      by_cases hz : rem.length = 0
      · have : nvps.length = quantum.length := by omega
        simp [hz, this]
      · have hne : ¬ nvps.length = quantum.length := by omega
        have h5 : rem.length = nvps.length - quantum.length := by omega
        rw [if_pos hz, if_neg hne, h5]

/-- A backend switch matching c2net for the C2 witness. -/
def c2sw1 : Lswitch :=
  { uuid := "net-a", display_name := "NA", tags := [],
    fabric_status := true, lport_count := 0 }

/-- A first orphan backend switch for the C2 witness. -/
def c2sw2 : Lswitch :=
  { uuid := "orph-1", display_name := "o1", tags := [],
    fabric_status := true, lport_count := 0 }

/-- A second orphan backend switch for the C2 witness. -/
def c2sw3 : Lswitch :=
  { uuid := "orph-2", display_name := "o2", tags := [],
    fabric_status := false, lport_count := 0 }

/-- C2 witness: the amended theorem applied at the end-to-end scenario
with two orphan backend switches, hypotheses discharged concretely:
the result list keeps exactly the local ids and the drift warning
cites count two. -/
theorem get_networks_match_drift_witness :
    ([{ c2net with status := NET_STATUS_ACTIVE, name := "NA" }].map
        (fun r => r.id) = [c2net].map (fun r => r.id)) ∧
    (some 2 : Option Nat) =
      (if ([c2sw1, c2sw2, c2sw3] : List Lswitch).length =
          ([c2net] : List NetRec).length then none
       else some (([c2sw1, c2sw2, c2sw3] : List Lswitch).length -
         ([c2net] : List NetRec).length)) :=
  (get_networks_match_drift [c2net] [c2sw1, c2sw2, c2sw3]).2
    [{ c2net with status := NET_STATUS_ACTIVE, name := "NA" }] (some 2)
    (by rfl)

/-! ### Claim C4: vlan create validation -/

/-- Helper: on a vlan-type request the provider validation reduces to
the range check followed by the vlan id uniqueness check. -/
theorem handle_provider_create_vlan (bindings : List NetworkBinding)
    (nm : String) (asu : Bool) (tid : String) (ps : Bool)
    (pn : Option String) (sid : Int) :
    handle_provider_create bindings
      { name := nm, admin_state_up := asu, tenant_id := tid,
        port_security := ps, network_type := some "vlan",
        physical_network := pn, segmentation_id := some sid } =
      (if sid < 1 ∨ sid > 4094 then
        .error (.InvalidInput "out of range (1 to 4094)")
      else
        match get_network_binding_by_vlanid bindings sid with
        | some _ => .error (.VlanIdInUse sid)
        | none => .ok ()) := by
  simp [handle_provider_create]

/-- C4: for every vlan-type create-network request, a segmentation id
outside the range 1 to 4094 fails create with InvalidInput, and a
segmentation id whose (physical-network, segmentation-id) pair is
already bound fails create with VlanIdInUse (the SegmentationIdInUse
error kind); in both cases the system state is returned unchanged, so
no local record and no backend switch is created. -/
theorem create_network_vlan_validation (sys : SysState)
    (backendResult : Except Unit Uuid) (d : NetCreateData) (sid : Int)
    (hnt : d.network_type = some "vlan")
    (hsid : d.segmentation_id = some sid) :
    ((sid < 1 ∨ sid > 4094) →
      create_network sys backendResult d =
        (.error (.InvalidInput "out of range (1 to 4094)"), sys)) ∧
    (1 ≤ sid → sid ≤ 4094 →
      (∃ b ∈ sys.store.bindings, b.tz_uuid = d.physical_network ∧
        b.vlan_id = some sid) →
      create_network sys backendResult d =
        (.error (.VlanIdInUse sid), sys)) := by
  obtain ⟨nm, asu, tid, ps, nt, pn, si⟩ := d
  simp only at hnt hsid
  subst hnt
  subst hsid
  constructor
  · intro hrange
    have hpc := handle_provider_create_vlan sys.store.bindings nm asu tid ps pn sid
    rw [if_pos hrange] at hpc
    rw [create_network.eq_def, hpc]
  · intro h1 h2 hex
    obtain ⟨b, hbmem, _, hvid⟩ := hex
    have hfind : (sys.store.bindings.find?
        (fun b => b.vlan_id = some sid)).isSome := by
      rw [List.find?_isSome]
      exact ⟨b, hbmem, by simp [hvid]⟩
    obtain ⟨b2, hb2⟩ := Option.isSome_iff_exists.mp hfind
    have hpc := handle_provider_create_vlan sys.store.bindings nm asu tid ps pn sid
    rw [if_neg (by omega)] at hpc
    rw [get_network_binding_by_vlanid] at hpc
    rw [hb2] at hpc
    rw [create_network.eq_def, hpc]

/-- A binding occupying vlan 100 on phys1, for the C4 witness. -/
def c4binding : NetworkBinding :=
  { network_id := "net-n2", binding_type := "vlan",
    tz_uuid := some "phys1", vlan_id := some 100 }

/-- A system state whose store holds c4binding. -/
def c4sys : SysState :=
  { store := { networks := [], bindings := [c4binding], ports := [] },
    backendSwitches := [] }

/-- A vlan create request for the already-bound pair (phys1, 100). -/
def c4data : NetCreateData :=
  { name := "n3", admin_state_up := true, tenant_id := "t4",
    port_security := true, network_type := some "vlan",
    physical_network := some "phys1", segmentation_id := some 100 }

/-- C4 witness: the theorem applied at the scenario where (phys1, 100)
is already bound; the create fails with VlanIdInUse and the state is
unchanged. -/
theorem create_network_vlan_validation_witness :
    create_network c4sys (.ok "u-new") c4data =
      (.error (.VlanIdInUse 100), c4sys) :=
  (create_network_vlan_validation c4sys (.ok "u-new") c4data 100
    rfl rfl).2 (by norm_num) (by norm_num)
    ⟨c4binding, by simp [c4sys], rfl, rfl⟩

/-! ### Claim C6: backend-first ordering of create_network -/

/-- C6: for every create-network request that passes provider
validation, the backend switch is created first: a backend failure
aborts the call before any local mutation (the whole system state is
returned unchanged); on success the backend-assigned uuid u becomes
the id of the local record, the switch with that uuid exists on the
backend, and all local mutations are exactly one application of the
single local transaction create_network_txn. -/
theorem create_network_backend_first (sys : SysState) (d : NetCreateData)
    (u : Uuid)
    (hok : handle_provider_create sys.store.bindings d = .ok ()) :
    create_network sys (.error ()) d = (.error .BackendError, sys) ∧
    create_network sys (.ok u) d =
      (.ok (create_network_txn sys.store u d).1,
       { store := (create_network_txn sys.store u d).2,
         backendSwitches := sys.backendSwitches ++
           [{ uuid := u, display_name := d.name, tags := [],
              fabric_status := true, lport_count := 0 }] }) ∧
    (create_network_txn sys.store u d).1.id = u := by
  refine ⟨?_, ?_, rfl⟩
  · rw [create_network.eq_def, hok]
  · rw [create_network.eq_def, hok]

/-- A create request with no provider attributes, for the C6 witness. -/
def c6data : NetCreateData :=
  { name := "n1", admin_state_up := true, tenant_id := "t6",
    port_security := true, network_type := none,
    physical_network := none, segmentation_id := none }

/-- An empty system state for the C6 witness. -/
def c6sys : SysState :=
  { store := { networks := [], bindings := [], ports := [] },
    backendSwitches := [] }

/-- C6 witness: the theorem applied at a concrete provider-free create
request, hypotheses discharged by evaluation. -/
theorem create_network_backend_first_witness :
    create_network c6sys (.error ()) c6data =
      (.error .BackendError, c6sys) ∧
    (create_network_txn c6sys.store "ls-uuid-1" c6data).1.id = "ls-uuid-1" :=
  have h := create_network_backend_first c6sys c6data "ls-uuid-1" rfl
  ⟨h.1, h.2.2⟩

/-! ### Claim C5: switch selection -/

/-- Helper: when every queried switch is at or above the ceiling, the
qualifying filter is empty. -/
theorem lswitch_filter_full (lswitches : List Lswitch) (maxPorts : Nat)
    (hfull : ∀ ls ∈ lswitches, ¬ ls.lport_count < maxPorts) :
    lswitches.filter (fun ls => ls.lport_count < maxPorts) = [] :=
  List.filter_eq_nil_iff.mpr (fun ls hls => by simpa using hfull ls hls)

/-- Helper shared by the selection and create_port claims: with every
switch full and extra switches disallowed, selection raises
NvpNoMorePortsException for the network. -/
theorem handle_lswitch_selection_full_noextra (lswitches : List Lswitch)
    (networkId : Uuid) (networkName : String) (maxPorts : Nat)
    (newUuid : Uuid)
    (hfull : ∀ ls ∈ lswitches, ¬ ls.lport_count < maxPorts) :
    handle_lswitch_selection lswitches networkId networkName maxPorts
        false newUuid = .error (.NvpNoMorePortsException networkId) := by
  rw [handle_lswitch_selection.eq_def,
    lswitch_filter_full lswitches maxPorts hfull]
  rfl

/-- C5 (amended): switch selection never returns an existing switch at
or above the capacity ceiling (any switch returned from the queried set
has a port count strictly below maxPorts); with every switch full and
fragmentation disallowed it fails with NvpNoMorePortsException
(CapacityExhausted); with every switch full and fragmentation allowed,
a new switch — with the backend-assigned uuid and named from the
network name and the current switch count — is created and returned
only when the primary switch (uuid equal to the network id) is among
the queried switches; when the primary is absent, selection instead
raises IndexError at the main_ls[0] lookup and no switch is created. -/
theorem handle_lswitch_selection_spec (lswitches : List Lswitch)
    (networkId : Uuid) (networkName : String) (maxPorts : Nat)
    (newUuid : Uuid) :
    (∀ (allowExtra : Bool) (ls : Lswitch),
      handle_lswitch_selection lswitches networkId networkName maxPorts
          allowExtra newUuid = .ok (.existing ls) →
      ls ∈ lswitches ∧ ls.lport_count < maxPorts) ∧
    ((∀ ls ∈ lswitches, ¬ ls.lport_count < maxPorts) →
      handle_lswitch_selection lswitches networkId networkName maxPorts
          false newUuid = .error (.NvpNoMorePortsException networkId)) ∧
    ((∀ ls ∈ lswitches, ¬ ls.lport_count < maxPorts) →
      ∀ main, main ∈ lswitches → main.uuid = networkId →
      ∃ (newLs : Lswitch) (tagged : Bool),
        handle_lswitch_selection lswitches networkId networkName maxPorts
            true newUuid = .ok (.created newLs tagged) ∧
        newLs.uuid = newUuid ∧
        newLs.display_name =
          networkName ++ "-ext-" ++ toString lswitches.length) ∧
    ((∀ ls ∈ lswitches, ¬ ls.lport_count < maxPorts) →
      (∀ ls ∈ lswitches, ls.uuid ≠ networkId) →
      handle_lswitch_selection lswitches networkId networkName maxPorts
          true newUuid = .error .IndexError) := by
  refine ⟨?_, ?_, ?_, ?_⟩
  · intro allowExtra ls h
    rw [handle_lswitch_selection.eq_def] at h
    cases hfil : lswitches.filter (fun ls => ls.lport_count < maxPorts) with
    | nil =>
      rw [hfil] at h
      simp only at h
      cases allowExtra with
      | false => simp at h
      | true =>
        cases hfu : lswitches.filter (fun ls => ls.uuid = networkId) with
        | nil => rw [hfu] at h; simp at h
        | cons m ms => rw [hfu] at h; simp at h
    | cons a rest =>
      rw [hfil] at h
      simp only at h
      injection h with h2
      injection h2 with h3
      subst h3
      have hmf : a ∈ lswitches.filter (fun ls => ls.lport_count < maxPorts) := by
        rw [hfil]; simp
      have hmf2 := List.mem_filter.mp hmf
      exact ⟨hmf2.1, by simpa using hmf2.2⟩
  · intro hfull
    exact handle_lswitch_selection_full_noextra lswitches networkId
      networkName maxPorts newUuid hfull
  · intro hfull main hmem huuid
    have hfil := lswitch_filter_full lswitches maxPorts hfull
    have hmemf : main ∈ lswitches.filter (fun ls => ls.uuid = networkId) :=
      List.mem_filter.mpr ⟨hmem, by simp [huuid]⟩
    cases hfu : lswitches.filter (fun ls => ls.uuid = networkId) with
    | nil => rw [hfu] at hmemf; simp at hmemf
    | cons m ms =>
      refine ⟨{ uuid := newUuid,
                display_name :=
                  networkName ++ "-ext-" ++ toString lswitches.length,
                tags := [("os_tid", ""), ("quantum_net_id", networkId)],
                fabric_status := true, lport_count := 0 },
              ! m.tags.any (fun t => t.1 = "multi_lswitch"), ?_, rfl, rfl⟩
      rw [handle_lswitch_selection.eq_def, hfil, hfu]
      rfl
  · intro hfull hnoprim
    have hfil := lswitch_filter_full lswitches maxPorts hfull
    have hfu : lswitches.filter (fun ls => ls.uuid = networkId) = [] :=
      List.filter_eq_nil_iff.mpr
        (fun ls hls => by simpa using hnoprim ls hls)
    rw [handle_lswitch_selection.eq_def, hfil, hfu]
    rfl

/-- A full backend switch that is not the primary of network net-5:
its uuid differs from the network id. -/
def c5orphan : Lswitch :=
  { uuid := "other-uuid", display_name := "o1", tags := [],
    fabric_status := true, lport_count := 5 }

/-- C5 counterexample: an invocation with every queried switch full and
fragmentation allowed on which NO new switch is created: the primary
switch (uuid equal to the network id) is absent from the queried set,
so main_ls is empty and main_ls[0] (line 307) raises IndexError
instead of creating and returning a switch. -/
theorem handle_lswitch_selection_counterexample :
    handle_lswitch_selection [c5orphan] "net-5" "n5" 1 true "ext-uuid" =
      .error .IndexError := rfl

/-- A full primary switch for the C5 witness: its uuid equals the
network id and its port count is at the ceiling. -/
def c5prim : Lswitch :=
  { uuid := "net-5", display_name := "n5", tags := [],
    fabric_status := true, lport_count := 5 }

/-- C5 witness: the theorem applied with the primary switch full and
fragmentation allowed; a new switch named n5-ext-1 with the
backend-assigned uuid is created. -/
theorem handle_lswitch_selection_spec_witness :
    ∃ (newLs : Lswitch) (tagged : Bool),
      handle_lswitch_selection [c5prim] "net-5" "n5" 1 true "ext-uuid" =
        .ok (.created newLs tagged) ∧
      newLs.uuid = "ext-uuid" ∧
      newLs.display_name =
        "n5" ++ "-ext-" ++ toString ([c5prim] : List Lswitch).length :=
  (handle_lswitch_selection_spec [c5prim] "net-5" "n5" 1 "ext-uuid").2.2.1
    (by
      intro ls hls
      rw [List.mem_singleton] at hls
      subst hls
      decide)
    c5prim (by simp) rfl

/-! ### Claim C7: capacity exhaustion in create_port -/

/-- C7: for every create-port request on a network whose binding does
not allow fragmentation (no bridged binding) and whose switches are all
at the overlay capacity ceiling, create_port fails with
NvpNoMorePortsException itself — never wrapped into the generic
NvpPluginException — and the system state is returned unchanged, so no
local port record persists. -/
theorem create_port_capacity_exhausted (opts : NvpOpts) (sys : SysState)
    (d : PortCreateData) (newPortId : Uuid) (newMac : String)
    (lswitches : List Lswitch) (newLsUuid : Uuid) (backendOk : Bool)
    (net : NetRec)
    (hnet : sys.store.networks.find? (fun n => n.id = d.network_id) =
      some net)
    (hnb : ∀ b ∈ sys.store.bindings.find?
        (fun b => b.network_id = d.network_id),
      b.binding_type ≠ NetworkTypesFLAT ∧ b.binding_type ≠ NetworkTypesVLAN)
    (hfull : ∀ ls ∈ lswitches,
      ¬ ls.lport_count < opts.max_lp_per_overlay_ls) :
    create_port opts sys d newPortId newMac lswitches newLsUuid backendOk =
      (.error (.NvpNoMorePortsException d.network_id), sys) := by
  rw [create_port.eq_def, hnet]
  simp only
  cases hb : sys.store.bindings.find? (fun b => b.network_id = d.network_id) with
  | none =>
    simp [binding_bridged,
      handle_lswitch_selection_full_noextra lswitches d.network_id
        net.name opts.max_lp_per_overlay_ls newLsUuid hfull]
  | some b =>
    have hne := hnb b hb
    have hbr : binding_bridged (some b) = false := by
      simp [binding_bridged, hne.1, hne.2]
    rw [hbr]
    simp [handle_lswitch_selection_full_noextra lswitches d.network_id
      net.name opts.max_lp_per_overlay_ls newLsUuid hfull]

/-- A local network for the C7 witness. -/
def c7net : NetRec :=
  { id := "net-7", tenant_id := "t7", name := "n7", admin_state_up := true,
    status := NET_STATUS_ACTIVE, port_security := true }

/-- A system state containing only c7net, with no provider binding. -/
def c7sys : SysState :=
  { store := { networks := [c7net], bindings := [], ports := [] },
    backendSwitches := [] }

/-- A full backend switch for the network of the C7 witness. -/
def c7switch : Lswitch :=
  { uuid := "net-7", display_name := "n7", tags := [],
    fabric_status := true, lport_count := 3 }

/-- A create-port request on net-7 for the C7 witness. -/
def c7port : PortCreateData :=
  { network_id := "net-7", tenant_id := "t7", name := "p1",
    device_id := "vm1", admin_state_up := true, port_security := none }

/-- C7 witness: the theorem applied at the scenario of a port created
on a network whose only switch is at full capacity with fragmentation
disallowed; the hypotheses are discharged by evaluation. -/
theorem create_port_capacity_exhausted_witness :
    create_port { max_lp_per_overlay_ls := 3, max_lp_per_bridged_ls := 10 }
        c7sys c7port "p-uuid" "fa:16:3e:00:00:01" [c7switch] "ext" true =
      (.error (.NvpNoMorePortsException "net-7"), c7sys) :=
  create_port_capacity_exhausted
    { max_lp_per_overlay_ls := 3, max_lp_per_bridged_ls := 10 }
    c7sys c7port "p-uuid" "fa:16:3e:00:00:01" [c7switch] "ext" true c7net
    (by rfl) (by simp [c7sys]) (by
      intro ls hls
      rw [List.mem_singleton] at hls
      subst hls
      decide)

end Nvp
